import Mathlib

set_option autoImplicit false

/-!
Verification development for the `dolphin-mcp` Docker sandbox.

This file gives a shallow embedding of the repository's core logic and proves
the specification's claims about it:

* the import policy gate `validate_imports` (from `test_import_restrictions.py`
  and `demo_import_restrictions.py`, identical validation logic);
* the session-file reader `read_session_file` and the `pathlib` path operations
  it relies on (from `src/dolphin_mcp/docker_sandbox.py`);
* the executor `execute_code` and the wrapper `sandboxed_python_interpreter`
  (from `src/dolphin_mcp/docker_sandbox.py`), with the Docker engine modelled
  as an environment of operation outcomes.

Python exceptions are modelled explicitly (`Except` / outcome environments),
machine-level side effects (container removal attempts, dict mutation) are
returned as explicit outputs.
-/

namespace DolphinMCP

/-! ## Policy gate (`validate_imports`)

`ALLOWED_LIBRARIES` is transcribed verbatim from `test_import_restrictions.py`
(the set literal, lines 9-34; `demo_import_restrictions.py` holds the same
entries). Python's `set` is modelled as a `List String` with membership via
`contains`; only membership is ever used, so duplicates/order are irrelevant. -/

def ALLOWED_LIBRARIES : List String :=
  [ "sys", "os", "math", "random", "datetime", "time", "json", "csv", "io", "collections",
    "itertools", "functools", "operator", "re", "string", "textwrap", "unicodedata",
    "struct", "codecs", "base64", "binascii", "hashlib", "hmac", "secrets",
    "pathlib", "glob", "fnmatch", "tempfile", "shutil", "pickle", "shelve",
    "sqlite3", "gzip", "bz2", "lzma", "zipfile", "tarfile",
    "configparser", "argparse", "logging", "warnings", "traceback",
    "decimal", "fractions", "statistics", "enum", "typing", "copy", "pprint",
    "heapq", "bisect", "array", "queue", "threading", "multiprocessing",
    "subprocess", "socket", "ssl", "email", "urllib", "http", "html",
    "xml", "webbrowser", "uuid", "contextlib", "abc", "dataclasses",
    "numpy", "np",
    "pandas", "pd",
    "matplotlib", "plt",
    "scipy",
    "sklearn", "scikit-learn",
    "pdfplumber",
    "fitz", "pymupdf",
    "docx", "python-docx",
    "pptx", "python-pptx",
    "openpyxl",
    "chardet",
    "magic", "python-magic" ]

/-- Splitting a character list at every occurrence of a separator, with the
semantics of Python's `str.split(sep)`: `"".split` gives one empty piece,
adjacent separators give empty pieces. Used to embed `str.split('.')` and
`pathlib`'s component splitting. -/
def splitChars (sep : Char) : List Char → List (List Char)
  | [] => [[]]
  | c :: rest =>
    let r := splitChars sep rest
    if c = sep then
      [] :: r
    else
      match r with
      | h :: t => (c :: h) :: t
      | [] => [[c]]

/-- Embeds `name.split('.')[0]`: the leading segment of a dotted module name, i.e. the
characters before the first `'.'`. -/
def topLevel (name : String) : String :=
  ⟨(splitChars '.' name.data).headD []⟩

/-- Embeds the `module_name in ALLOWED_LIBRARIES` test for the top-level segment of `m`,
exactly the membership test performed by `validate_imports`. -/
def isAllowed (m : String) : Bool :=
  ALLOWED_LIBRARIES.contains (topLevel m)

/-- The import-relevant abstraction of a node met by `ast.walk`:
`ast.Import` carries the dotted names of `import a.b, c`; `ast.ImportFrom`
carries `node.module`, which is `None` for a bare relative `from . import y`;
every other node kind is `other`. -/
inductive Stmt where
  | importStmt (names : List String)
  | importFrom (module : Option String)
  | other
deriving DecidableEq, Repr

/-- Result of `ast.parse`: either a `SyntaxError` (whose formatted text the
source interpolates into its message) or the walked sequence of nodes. -/
inductive ParseResult where
  | parseFailure (msg : String)
  | tree (stmts : List Stmt)
deriving DecidableEq, Repr

/-- The names a single node contributes to `disallowed_imports`: for
`ast.Import`, each `alias.name` whose top-level segment is not allowed; for
`ast.ImportFrom`, `node.module` when present and its top-level segment is not
allowed; a bare relative import (`node.module is None`) contributes nothing. -/
def stmtViolations : Stmt → List String
  | .importStmt names => names.filter (fun n => !(isAllowed n))
  | .importFrom (some m) => if isAllowed m then [] else [m]
  | .importFrom none => []
  | .other => []

/-- Every dotted module name referenced by an import node (checked or not):
`alias.name` for `ast.Import`, `node.module` for `ast.ImportFrom` when
present. -/
def stmtModules : Stmt → List String
  | .importStmt names => names
  | .importFrom (some m) => [m]
  | .importFrom none => []
  | .other => []

/-- All module names referenced by the tree's import nodes. -/
def referencedModules (stmts : List Stmt) : List String :=
  (stmts.map stmtModules).flatten

/-- The accumulated `disallowed_imports` Python set, modelled as a deduplicated
list (membership is all that the source uses besides the sorted rendering). -/
def disallowedImports (stmts : List Stmt) : List String :=
  ((stmts.map stmtViolations).flatten).dedup

/-- Embeds `sorted(disallowed_imports)`: the violation set in lexicographic order
(Python sorts strings by code point; `String`'s linear order is the
corresponding lexicographic order on the character data). -/
def sortedViolations (stmts : List Stmt) : List String :=
  (disallowedImports stmts).insertionSort (fun a b => a ≤ b)

/-- Embeds `validate_imports` from `test_import_restrictions.py` (lines 37-63):
parse, walk collecting disallowed imports, and either accept with an empty
message or reject with the sorted violation list interpolated into the
message. The parse step is the `ParseResult` argument. -/
def validate_imports (p : ParseResult) : Bool × String :=
  match p with
  | .parseFailure msg => (false, "Syntax error in code: " ++ msg)
  | .tree stmts =>
    if disallowedImports stmts ≠ [] then
      (false, "Import restriction violation: The following imports are not allowed: "
        ++ String.intercalate ", " (sortedViolations stmts))
    else
      (true, "")

/-! ## `pathlib` paths and `read_session_file`

`PyPath` models a `pathlib.PosixPath`: an anchor flag plus the component list
(after `pathlib`'s parsing, which drops empty and `"."` components but keeps
`".."`). `read_session_file` (docker_sandbox.py lines 290-308) joins the
session directory with the caller-supplied name, checks `exists()` (an OS
lookup, which resolves `".."`), then checks `is_relative_to` (a purely
lexical check on the unresolved path), then reads. -/

structure PyPath where
  absolute : Bool
  parts : List String
deriving DecidableEq, Repr

/-- Whether a path string has a leading `'/'` (the POSIX anchor). -/
def hasRootChar (s : String) : Bool :=
  match s.data with
  | c :: _ => c = '/'
  | [] => false

/-- Parsing of a path string as `pathlib` does it: split on `'/'`, drop empty and `"."`
components, keep `".."`; absolute iff the string starts with `'/'`. -/
def parsePath (s : String) : PyPath :=
  { absolute := hasRootChar s,
    parts := ((splitChars '/' s.data).map (fun cs => (⟨cs⟩ : String))).filter
      (fun c => !(c == "" || c == ".")) }

/-- The `/` operator on paths: appending components, except that an absolute
right operand replaces the left entirely. -/
def pathJoin (p q : PyPath) : PyPath :=
  if q.absolute then q else ⟨p.absolute, p.parts ++ q.parts⟩

/-- Embeds `Path.is_relative_to`: a purely lexical check — same anchor and the base's
components are a leading run of the path's components. No `".."` resolution is
performed (this is exactly what `pathlib` does). -/
def isRelativeTo (p base : PyPath) : Bool :=
  p.absolute == base.absolute && base.parts.isPrefixOf p.parts

/-- Lexical `".."` normalisation as performed by the OS during a path lookup
(and by `Path.resolve`): each `".."` removes the preceding component; at the
root it is a no-op. No symlinks are modelled. -/
def normalizeParts (ps : List String) : List String :=
  ps.foldl (fun acc c => if c == ".." then acc.dropLast else acc ++ [c]) []

/-- The fully resolved form of an (absolute) path. -/
def resolvePath (p : PyPath) : PyPath :=
  ⟨p.absolute, normalizeParts p.parts⟩

/-- The host filesystem: contents indexed by resolved absolute path. -/
def FileSystem : Type :=
  PyPath → Option String

/-- Embeds `Path.read_text` / `Path.exists`: the OS resolves `".."` during lookup. -/
def readText (fs : FileSystem) (p : PyPath) : Option String :=
  fs (resolvePath p)

/-- The exceptions `read_session_file` raises. -/
inductive ReadErr where
  | fileNotFound (msg : String)
  | valueError (msg : String)
deriving DecidableEq, Repr

/-- Embeds `read_session_file(filename)` (docker_sandbox.py lines 290-308):
`file_path = session_dir / filename`; raise `FileNotFoundError` if it does not
exist; raise `ValueError("Path traversal attempt detected")` if
`file_path.is_relative_to(session_dir)` is false; otherwise return
`file_path.read_text()`. The existence test precedes the traversal test, and
the traversal test runs on the unresolved `file_path`. -/
def read_session_file (fs : FileSystem) (session_dir : PyPath) (filename : String) :
    Except ReadErr String :=
  let file_path := pathJoin session_dir (parsePath filename)
  match readText fs file_path with
  | none => .error (.fileNotFound ("File not found: " ++ filename))
  | some content =>
    if !(isRelativeTo file_path session_dir) then
      .error (.valueError "Path traversal attempt detected")
    else
      .ok content

/-! ## Sandbox executor (`execute_code`, `sandboxed_python_interpreter`)

The Docker engine is modelled as a `DockerEnv` recording the outcome of each
engine call the executor makes: script write, `containers.create`,
`container.start`, `container.wait(timeout=...)` (whose fault may specifically
be the wall-clock timeout expiring), `container.logs` (combined with the
utf-8 decode), and `container.remove(force=True)`. -/

/-- A Python exception as the executor's handlers can observe it:
`docker.errors.ContainerError` (matched by the first handler, carrying the
stderr text the handler decodes), the timeout fault raised by
`container.wait` when the wall clock expires, or any other exception. The
latter two carry their `traceback.format_exc()` rendering as opaque text;
the source's single `except Exception` handler treats them identically. -/
inductive PyExn where
  | containerError (stderrText : String)
  | timeout (tracebackText : String)
  | other (tracebackText : String)
deriving DecidableEq, Repr

/-- Renders `traceback.format_exc()` for the exception currently being handled. -/
def tracebackOf : PyExn → String
  | .containerError s => s
  | .timeout tb => tb
  | .other tb => tb

/-- Outcomes of the engine calls made during one `execute_code` call. -/
structure DockerEnv where
  /-- Outcome of `script_path.write_text(full_script)`: `some e` means it raised `e`. -/
  writeRes : Option PyExn
  /-- Outcome of `self.docker_client.containers.create(...)`. -/
  createRes : Option PyExn
  /-- Outcome of `container.start()`. -/
  startRes : Option PyExn
  /-- Outcome of `container.wait(timeout=self.timeout)`: the exit-status mapping on
  success, or the exception raised (a timeout expiry raises). -/
  waitRes : Except PyExn Int
  /-- Outcome of `container.logs(stdout=True, stderr=True)` followed by the utf-8
  decode, as the produced text. -/
  logsRes : Except PyExn String
  /-- Whether `container.remove(force=True)` succeeds (its own failure is
  swallowed by the bare `except: pass`). -/
  removeOk : Bool

/-- Whether this execution exceeds the configured wall-clock timeout, i.e.
`container.wait` raises the timeout fault. -/
def timesOut (env : DockerEnv) : Bool :=
  match env.waitRes with
  | .error (.timeout _) => true
  | _ => false

/-- The body of `execute_code`'s outer `try` (docker_sandbox.py lines
148-202): write the script, create the container, then inside the inner
`try`/`finally` start, wait, and collect logs; the inner `finally` attempts
`container.remove(force=True)` whenever the container was created. Returns
the outcome that reaches the outer handlers (`ok` at the `return output`
statement, `error` for an uncaught exception) paired with whether the remove
was attempted. The exit status bound from `wait` is never used by the
source. -/
def execute_body (env : DockerEnv) : Except PyExn String × Bool :=
  match env.writeRes with
  | some e => (.error e, false)
  | none =>
    match env.createRes with
    | some e => (.error e, false)
    | none =>
      match env.startRes with
      | some e => (.error e, true)
      | none =>
        match env.waitRes with
        | .error e => (.error e, true)
        | .ok _exitStatus =>
          match env.logsRes with
          | .error e => (.error e, true)
          | .ok output => (.ok output, true)

/-- The string returned by `execute_code`'s exception handlers:
`except docker.errors.ContainerError` returns
`"EXECUTION ERROR:\nContainer execution error:\n" + stderr`, and the
catch-all `except Exception` returns
`"ERROR:\nUnexpected error:\n" + traceback.format_exc()`. -/
def handled_output : PyExn → String
  | .containerError stderr => "EXECUTION ERROR:\nContainer execution error:\n" ++ stderr
  | .timeout tb => "ERROR:\nUnexpected error:\n" ++ tb
  | .other tb => "ERROR:\nUnexpected error:\n" ++ tb

/-- Which return statement of `execute_code` produced the result. -/
inductive Branch where
  | normalReturn
  | containerErrorHandler
  | genericHandler
deriving DecidableEq, Repr

/-- Which handler consumes an uncaught body exception. -/
def handlerBranch : PyExn → Branch
  | .containerError _ => .containerErrorHandler
  | _ => .genericHandler

/-- The observable outcome of one `execute_code` call: the returned string,
the return site that produced it, whether `container.remove(force=True)` was
called, and whether the container ended up removed. -/
structure ExecOutcome where
  output : String
  branch : Branch
  removeAttempted : Bool
  containerRemoved : Bool
deriving DecidableEq, Repr

/-- Embeds `execute_code` (docker_sandbox.py lines 131-218): run the `try` body and
route any uncaught exception through the two handlers, each of which returns
a string; no exception escapes the function. -/
def execute_code (env : DockerEnv) : ExecOutcome :=
  match execute_body env with
  | (.ok out, rem) => ⟨out, .normalReturn, rem, rem && env.removeOk⟩
  | (.error e, rem) => ⟨handled_output e, handlerBranch e, rem, rem && env.removeOk⟩

/-- The session-id resolution prologue of `sandboxed_python_interpreter`
(docker_sandbox.py lines 356-362): an explicit `session_id` argument wins and
leaves the context untouched; otherwise the id stored in the context under
`'__sandbox_session_id__'` is reused; otherwise a fresh id (`fresh`, standing
for `str(uuid.uuid4())`) is generated and stored into the context. The
context dict is modelled as an association list; storing a new key appends
(Python dict insertion order). Returns the chosen id and the (possibly
updated) context. -/
def resolve_session_id (ctx : List (String × String)) (session_id : Option String)
    (fresh : String) : String × List (String × String) :=
  match session_id with
  | some sid => (sid, ctx)
  | none =>
    match ctx.lookup "__sandbox_session_id__" with
    | some sid => (sid, ctx)
    | none => (fresh, ctx ++ [("__sandbox_session_id__", fresh)])

/-- The environment of one `sandboxed_python_interpreter` call: the
`DockerSandboxExecutor` constructor may raise (docker daemon unreachable,
image missing — both surfaced as `RuntimeError`), and the execution itself
sees a `DockerEnv`. -/
structure SandboxEnv where
  ctorRes : Option PyExn
  execEnv : DockerEnv

/-- Embeds `sandboxed_python_interpreter` (docker_sandbox.py lines 330-369): resolve
the session id (possibly mutating the caller's context), then construct the
executor and run the code inside a `try` whose catch-all returns
`"SANDBOX ERROR:\n" + traceback.format_exc()`. Returns the output string
paired with the context as the caller observes it afterwards. -/
def sandboxed_python_interpreter (env : SandboxEnv) (ctx : List (String × String))
    (session_id : Option String) (fresh : String) : String × List (String × String) :=
  let r := resolve_session_id ctx session_id fresh
  match env.ctorRes with
  | some e => ("SANDBOX ERROR:\n" ++ tracebackOf e, r.2)
  | none => ((execute_code env.execEnv).output, r.2)

/-! ## Concrete instances used by counterexamples and witnesses -/

/-- Session directory `/tmp/sandboxes/abc`. -/
def sessionDirC : PyPath :=
  ⟨true, ["tmp", "sandboxes", "abc"]⟩

/-- A filesystem holding one file `/tmp/sandboxes/secret.txt` — the parent
directory of the session directory, hence outside it. -/
def escapeFS : FileSystem :=
  fun p => if p = ⟨true, ["tmp", "sandboxes", "secret.txt"]⟩ then some "top secret" else none

/-- A run whose `wait` call raises the wall-clock timeout fault. -/
def envTimeoutC : DockerEnv :=
  ⟨none, none, none, .error (.timeout "traceback text"), .ok "", true⟩

/-- A run whose `start` call raises (a launch failure), with the same
diagnostic text. -/
def envLaunchFailC : DockerEnv :=
  ⟨none, none, some (.other "traceback text"), .ok 0, .ok "", true⟩

/-- A clean run exiting with status 0 and logs `"hello\n"`. -/
def envExit0C : DockerEnv :=
  ⟨none, none, none, .ok 0, .ok "hello\n", true⟩

/-- The same run except the script exits with status 1. -/
def envExit1C : DockerEnv :=
  ⟨none, none, none, .ok 1, .ok "hello\n", true⟩

/-- An interpreter call whose `DockerSandboxExecutor` constructor raises. -/
def envCtorFailC : SandboxEnv :=
  ⟨some (.other "ctor traceback"), envExit0C⟩

/-- An interpreter call whose constructor succeeds. -/
def envOkC : SandboxEnv :=
  ⟨none, envExit0C⟩

/-! ## Supporting lemmas -/

/-- Per-node version of the violation collection: a node's contribution is the
disallowed sublist of the module names it references. -/
theorem stmtViolations_eq_filter (s : Stmt) :
    stmtViolations s = (stmtModules s).filter (fun m => !(isAllowed m)) := by
  cases s with
  | importStmt names => rfl
  | importFrom m =>
    cases m with
    | none => rfl
    | some mod =>
      simp only [stmtViolations, stmtModules, List.filter_cons, List.filter_nil]
      cases h : isAllowed mod <;> simp [h]
  | other => rfl

/-- The raw (pre-deduplication) violation list is the disallowed sublist of
all referenced module names. -/
theorem flatten_violations (stmts : List Stmt) :
    (stmts.map stmtViolations).flatten
      = (referencedModules stmts).filter (fun m => !(isAllowed m)) := by
  induction stmts with
  | nil => rfl
  | cons a t ih =>
    simp only [referencedModules, List.map_cons, List.flatten_cons, List.filter_append] at *
    rw [ih, stmtViolations_eq_filter a]

/-- The violation set is exactly the deduplicated disallowed sublist of the
referenced module names. -/
theorem disallowedImports_eq (stmts : List Stmt) :
    disallowedImports stmts
      = ((referencedModules stmts).filter (fun m => !(isAllowed m))).dedup := by
  rw [disallowedImports, flatten_violations]

/-- Statements contributing no violations leave the violation set empty. -/
theorem disallowedImports_eq_nil (stmts : List Stmt)
    (h : ∀ m ∈ referencedModules stmts, isAllowed m = true) :
    disallowedImports stmts = [] := by
  rw [disallowedImports_eq]
  have hf : (referencedModules stmts).filter (fun m => !(isAllowed m)) = [] := by
    rw [List.filter_eq_nil_iff]
    intro a ha
    simp [h a ha]
  rw [hf]
  rfl

/-- Acceptance: a tree whose referenced modules are all allowed validates to
`(true, "")`. -/
theorem validate_accept_of_allowed (stmts : List Stmt)
    (h : ∀ m ∈ referencedModules stmts, isAllowed m = true) :
    validate_imports (.tree stmts) = (true, "") := by
  have hd : disallowedImports stmts = [] := disallowedImports_eq_nil stmts h
  simp [validate_imports, hd]

/-- Looking up a key just appended to an association list that lacked it. -/
theorem lookup_append_single (k v : String) (ctx : List (String × String))
    (h : ctx.lookup k = none) : (ctx ++ [(k, v)]).lookup k = some v := by
  induction ctx with
  | nil => simp [List.lookup]
  | cons p t ih =>
    obtain ⟨k1, v1⟩ := p
    by_cases hk : (k == k1) = true
    · simp [List.lookup, hk] at h
    · simp only [List.lookup, hk] at h
      simp only [List.cons_append, List.lookup, hk]
      exact ih h

/-! ## Claim theorems -/

/-- C1 (code bug): `read_session_file` does not detect `..` traversal.
With the session directory `/tmp/sandboxes/abc` and the argument
`"../secret.txt"`, the joined path `/tmp/sandboxes/abc/../secret.txt` resolves
to `/tmp/sandboxes/secret.txt`, which is outside the session directory; yet
the purely lexical `is_relative_to` check on the unresolved path passes, so
the call returns the file's content instead of raising the traversal error
its own message promises. -/
theorem claim1_traversal_unchecked :
    read_session_file escapeFS sessionDirC "../secret.txt" = .ok "top secret" ∧
    resolvePath (pathJoin sessionDirC (parsePath "../secret.txt"))
      = ⟨true, ["tmp", "sandboxes", "secret.txt"]⟩ ∧
    isRelativeTo (resolvePath (pathJoin sessionDirC (parsePath "../secret.txt"))) sessionDirC
      = false ∧
    isRelativeTo (pathJoin sessionDirC (parsePath "../secret.txt")) sessionDirC = true :=
  ⟨rfl, rfl, rfl, rfl⟩

/-- C2 (counterexample): for the snippet `import foo.bar` the violation set is
`{"foo.bar"}` — the full dotted name — not the set `{"foo"}` of disallowed
top-level module names referenced, so the claim's characterisation of the
violation set is false at this input. -/
theorem claim2_counterexample :
    disallowedImports [Stmt.importStmt ["foo.bar"]] = ["foo.bar"] ∧
    topLevel "foo.bar" = "foo" ∧
    isAllowed "foo.bar" = false ∧
    disallowedImports [Stmt.importStmt ["foo.bar"]] ≠ ["foo"] ∧
    (validate_imports (.tree [Stmt.importStmt ["foo.bar"]])).2
      = "Import restriction violation: The following imports are not allowed: foo.bar" :=
  ⟨rfl, rfl, rfl, by decide, rfl⟩

/-- C2 (amended): a snippet referencing at least one disallowed name is
rejected; the violation set is exactly the deduplicated set of full (possibly
dotted) referenced module names whose top-level segment is disallowed; the
rejection message lists those names sorted lexicographically. -/
theorem claim2_reject_violations (stmts : List Stmt)
    (h : disallowedImports stmts ≠ []) :
    validate_imports (.tree stmts)
      = (false, "Import restriction violation: The following imports are not allowed: "
          ++ String.intercalate ", " (sortedViolations stmts)) ∧
    disallowedImports stmts
      = ((referencedModules stmts).filter (fun m => !(isAllowed m))).dedup ∧
    List.Sorted (fun a b : String => a ≤ b) (sortedViolations stmts) ∧
    (sortedViolations stmts).Perm (disallowedImports stmts) := by
  refine ⟨?_, disallowedImports_eq stmts, ?_, ?_⟩
  · simp only [validate_imports]
    rw [if_pos h]
  · exact List.sorted_insertionSort _ _
  · exact List.perm_insertionSort _ _

/-- C2 (witness): the snippet `import requests` instantiates the amended
claim. -/
theorem claim2_witness :
    validate_imports (.tree [Stmt.importStmt ["requests"]])
      = (false, "Import restriction violation: The following imports are not allowed: "
          ++ String.intercalate ", " (sortedViolations [Stmt.importStmt ["requests"]])) ∧
    disallowedImports [Stmt.importStmt ["requests"]]
      = ((referencedModules [Stmt.importStmt ["requests"]]).filter
          (fun m => !(isAllowed m))).dedup ∧
    List.Sorted (fun a b : String => a ≤ b) (sortedViolations [Stmt.importStmt ["requests"]]) ∧
    (sortedViolations [Stmt.importStmt ["requests"]]).Perm
      (disallowedImports [Stmt.importStmt ["requests"]]) :=
  claim2_reject_violations [Stmt.importStmt ["requests"]] (by decide)

/-- C3 (counterexample): a run whose `wait` raises the wall-clock timeout and
a run whose `start` raises a launch fault produce identical observable
outcomes (same returned string, same return site, same removal behaviour), so
the result of a timed-out execution carries no `Timeout` status distinct from
other failures; the only difference in the real system is the free-form
traceback text, which is not a status. -/
theorem claim3_counterexample :
    timesOut envTimeoutC = true ∧
    timesOut envLaunchFailC = false ∧
    execute_code envTimeoutC = execute_code envLaunchFailC ∧
    (execute_code envTimeoutC).output = "ERROR:\nUnexpected error:\ntraceback text" :=
  ⟨rfl, rfl, rfl, rfl⟩

/-- C3 (amended): an execution exceeding the configured timeout returns, via
the generic catch-all handler, the string `"ERROR:\nUnexpected error:\n"`
followed by the traceback — the same shape as any other unexpected fault, not
a distinct `Timeout` status — and `container.remove(force=True)` is always
attempted by the `finally` block, so the container is removed exactly when
the engine's forced remove succeeds. -/
theorem claim3_timeout_generic_error (env : DockerEnv) (tb : String)
    (hw : env.writeRes = none) (hc : env.createRes = none) (hs : env.startRes = none)
    (ht : env.waitRes = Except.error (PyExn.timeout tb)) :
    execute_code env
      = ⟨"ERROR:\nUnexpected error:\n" ++ tb, .genericHandler, true, env.removeOk⟩ := by
  simp [execute_code, execute_body, hw, hc, hs, ht, handled_output, handlerBranch]

/-- C3 (witness): the amended claim at the concrete timed-out environment. -/
theorem claim3_witness :
    execute_code envTimeoutC
      = ⟨"ERROR:\nUnexpected error:\ntraceback text", .genericHandler, true, true⟩ :=
  claim3_timeout_generic_error envTimeoutC "traceback text" rfl rfl rfl rfl

/-- C4 (counterexample): two runs identical except for the exit status
reported by `wait` (0 versus 1) produce identical outcomes, so the raw exit
code is not preserved in the result and success is not distinguished from
non-zero exit. -/
theorem claim4_counterexample :
    envExit0C.waitRes = Except.ok 0 ∧
    envExit1C.waitRes = Except.ok 1 ∧
    execute_code envExit0C = execute_code envExit1C ∧
    (execute_code envExit0C).output = "hello\n" :=
  ⟨rfl, rfl, rfl, rfl⟩

/-- C4 (amended): on a completed execution the combined log stream is
captured in full and returned as the entire result; the exit status bound
from `wait` is discarded — the outcome is the same for every exit code and
carries no completion status beyond the output text. -/
theorem claim4_output_captured_exit_discarded (env : DockerEnv) (c : Int) (s : String)
    (hw : env.writeRes = none) (hc : env.createRes = none) (hs : env.startRes = none)
    (hwait : env.waitRes = Except.ok c) (hlogs : env.logsRes = Except.ok s) :
    execute_code env = ⟨s, .normalReturn, true, env.removeOk⟩ := by
  simp [execute_code, execute_body, hw, hc, hs, hwait, hlogs]

/-- C4 (witness): the amended claim at the concrete clean run. -/
theorem claim4_witness :
    execute_code envExit0C = ⟨"hello\n", .normalReturn, true, true⟩ :=
  claim4_output_captured_exit_discarded envExit0C 0 "hello\n" rfl rfl rfl rfl rfl

/-- C5: a snippet all of whose referenced import modules have an allowed
top-level segment is accepted with an empty violation set (and empty
message); dotted names are checked by top-level segment only. -/
theorem claim5_allowed_accept (stmts : List Stmt)
    (h : ∀ m ∈ referencedModules stmts, isAllowed m = true) :
    validate_imports (.tree stmts) = (true, "") :=
  validate_accept_of_allowed stmts h

/-- C5 (witness): `from scipy.stats import norm` — the dotted module
`scipy.stats` is accepted because its top-level segment `scipy` is allowed. -/
theorem claim5_witness :
    (∀ m ∈ referencedModules [Stmt.importFrom (some "scipy.stats")], isAllowed m = true) ∧
    validate_imports (.tree [Stmt.importFrom (some "scipy.stats")]) = (true, "") :=
  ⟨by decide, claim5_allowed_accept [Stmt.importFrom (some "scipy.stats")] (by decide)⟩

/-- C6: no fault propagates to the caller. The interpreter's returned string
is the constructor-failure wrapper or the executor's output; whenever the
executor's `try` body ends in an uncaught exception, the returned output is
the corresponding handler string; and every handler string is a populated
diagnostic carrying one of the two error markers. -/
theorem claim6_no_fault_propagation (env : SandboxEnv) (ctx : List (String × String))
    (sid : Option String) (fresh : String) :
    (sandboxed_python_interpreter env ctx sid fresh).1
      = (match env.ctorRes with
         | some e => "SANDBOX ERROR:\n" ++ tracebackOf e
         | none => (execute_code env.execEnv).output) ∧
    (∀ e : PyExn, (execute_body env.execEnv).1 = Except.error e →
      (execute_code env.execEnv).output = handled_output e) ∧
    (∀ e : PyExn,
      (∃ r, handled_output e = "EXECUTION ERROR:\n" ++ r) ∨
      (∃ r, handled_output e = "ERROR:\n" ++ r)) := by
  refine ⟨?_, ?_, ?_⟩
  · cases h : env.ctorRes <;> simp [sandboxed_python_interpreter, h]
  · intro e he
    rcases hb : execute_body env.execEnv with ⟨r, rem⟩
    rw [hb] at he
    simp only at he
    subst he
    simp [execute_code, hb]
  · intro e
    cases e with
    | containerError s => exact Or.inl ⟨"Container execution error:\n" ++ s, rfl⟩
    | timeout tb => exact Or.inr ⟨"Unexpected error:\n" ++ tb, rfl⟩
    | other tb => exact Or.inr ⟨"Unexpected error:\n" ++ tb, rfl⟩

/-- C6 (witness): the claim at a concrete environment whose constructor
raises. -/
theorem claim6_witness :
    (sandboxed_python_interpreter envCtorFailC [] none "fresh-id").1
      = (match envCtorFailC.ctorRes with
         | some e => "SANDBOX ERROR:\n" ++ tracebackOf e
         | none => (execute_code envCtorFailC.execEnv).output) ∧
    (∀ e : PyExn, (execute_body envCtorFailC.execEnv).1 = Except.error e →
      (execute_code envCtorFailC.execEnv).output = handled_output e) ∧
    (∀ e : PyExn,
      (∃ r, handled_output e = "EXECUTION ERROR:\n" ++ r) ∨
      (∃ r, handled_output e = "ERROR:\n" ++ r)) :=
  claim6_no_fault_propagation envCtorFailC [] none "fresh-id"

/-- C7: a bare relative `from . import y` is skipped by the policy walk: it
never contributes to the violation set (inserting one anywhere leaves the
verdict unchanged), and a snippet containing only such statements is accepted
by omission. -/
theorem claim7_bare_relative_skipped (l1 l2 onlyRel : List Stmt)
    (h : ∀ s ∈ onlyRel, s = Stmt.importFrom none) :
    validate_imports (.tree (l1 ++ [Stmt.importFrom none] ++ l2))
      = validate_imports (.tree (l1 ++ l2)) ∧
    validate_imports (.tree onlyRel) = (true, "") := by
  constructor
  · have hd : disallowedImports (l1 ++ [Stmt.importFrom none] ++ l2)
        = disallowedImports (l1 ++ l2) := by
      simp [disallowedImports, stmtViolations]
    simp only [validate_imports, sortedViolations, hd]
  · have hmods : ∀ m ∈ referencedModules onlyRel, isAllowed m = true := by
      intro m hm
      rw [referencedModules] at hm
      simp only [List.mem_flatten, List.mem_map] at hm
      obtain ⟨l, ⟨st, hst, hmap⟩, hml⟩ := hm
      rw [h st hst] at hmap
      rw [← hmap] at hml
      simp [stmtModules] at hml
    exact validate_accept_of_allowed onlyRel hmods

/-- C7 (witness): inserting a bare relative import between an allowed and a
disallowed import changes nothing, and a snippet of only bare relative
imports is accepted. -/
theorem claim7_witness :
    validate_imports (.tree ([Stmt.importStmt ["numpy"]] ++ [Stmt.importFrom none]
        ++ [Stmt.importStmt ["requests"]]))
      = validate_imports (.tree ([Stmt.importStmt ["numpy"]] ++ [Stmt.importStmt ["requests"]])) ∧
    validate_imports (.tree [Stmt.importFrom none, Stmt.importFrom none]) = (true, "") :=
  claim7_bare_relative_skipped [Stmt.importStmt ["numpy"]] [Stmt.importStmt ["requests"]]
    [Stmt.importFrom none, Stmt.importFrom none] (by decide)

/-- C8: a parse failure yields a rejection carrying the parse error
description; the verdict is never an accept and the message is never of the
import-violation form. -/
theorem claim8_parse_failure_reject (msg : String) :
    validate_imports (.parseFailure msg) = (false, "Syntax error in code: " ++ msg) ∧
    (∀ rest : String,
      (validate_imports (.parseFailure msg)).2
        ≠ "Import restriction violation: The following imports are not allowed: " ++ rest) := by
  refine ⟨rfl, ?_⟩
  intro rest h
  simp only [validate_imports] at h
  have hS : ("Syntax error in code: " ++ msg).data.head? = some 'S' := rfl
  rw [h] at hS
  have hI : ("Import restriction violation: The following imports are not allowed: "
      ++ rest).data.head? = some 'I' := rfl
  rw [hI] at hS
  exact absurd (Option.some.inj hS) (by decide)

/-- C8 (witness): the claim at a concrete malformed snippet's error text. -/
theorem claim8_witness :
    validate_imports (.parseFailure "invalid syntax (line 1)")
      = (false, "Syntax error in code: " ++ "invalid syntax (line 1)") ∧
    (∀ rest : String,
      (validate_imports (.parseFailure "invalid syntax (line 1)")).2
        ≠ "Import restriction violation: The following imports are not allowed: " ++ rest) :=
  claim8_parse_failure_reject "invalid syntax (line 1)"

/-- C9: the compiled-in allow-list contains the conventional alias names and
distribution names, so `import np`, `import pd` and `import plt` are each
accepted with an empty violation set. -/
theorem claim9_alias_names_allowed :
    ("np" ∈ ALLOWED_LIBRARIES ∧ "pd" ∈ ALLOWED_LIBRARIES ∧ "plt" ∈ ALLOWED_LIBRARIES ∧
     "scikit-learn" ∈ ALLOWED_LIBRARIES ∧ "python-docx" ∈ ALLOWED_LIBRARIES ∧
     "python-pptx" ∈ ALLOWED_LIBRARIES ∧ "python-magic" ∈ ALLOWED_LIBRARIES) ∧
    validate_imports (.tree [Stmt.importStmt ["np"]]) = (true, "") ∧
    validate_imports (.tree [Stmt.importStmt ["pd"]]) = (true, "") ∧
    validate_imports (.tree [Stmt.importStmt ["plt"]]) = (true, "") := by
  refine ⟨⟨?_, ?_, ?_, ?_, ?_, ?_, ?_⟩, rfl, rfl, rfl⟩ <;> decide

/-- C10: when no session id is supplied and the context lacks
`'__sandbox_session_id__'`, the interpreter stores a freshly generated id
into the caller's context; when a session id is supplied, the context is left
unchanged; and a later call with the updated context (and no explicit id)
reuses the stored id without touching the context again. -/
theorem claim10_context_session_id (env env2 : SandboxEnv)
    (ctx : List (String × String)) (fresh fresh2 sid : String)
    (h : ctx.lookup "__sandbox_session_id__" = none) :
    (sandboxed_python_interpreter env ctx none fresh).2
      = ctx ++ [("__sandbox_session_id__", fresh)] ∧
    (sandboxed_python_interpreter env2 ctx (some sid) fresh).2 = ctx ∧
    resolve_session_id (ctx ++ [("__sandbox_session_id__", fresh)]) none fresh2
      = (fresh, ctx ++ [("__sandbox_session_id__", fresh)]) := by
  refine ⟨?_, ?_, ?_⟩
  · cases hc : env.ctorRes <;>
      simp [sandboxed_python_interpreter, resolve_session_id, h, hc]
  · cases hc : env2.ctorRes <;>
      simp [sandboxed_python_interpreter, resolve_session_id, hc]
  · rw [resolve_session_id]
    rw [lookup_append_single _ _ _ h]

/-- C10 (witness): the claim at a concrete context lacking the key. -/
theorem claim10_witness :
    (sandboxed_python_interpreter envOkC [("x", "1")] none "id-1").2
      = [("x", "1")] ++ [("__sandbox_session_id__", "id-1")] ∧
    (sandboxed_python_interpreter envOkC [("x", "1")] (some "given") "id-1").2 = [("x", "1")] ∧
    resolve_session_id ([("x", "1")] ++ [("__sandbox_session_id__", "id-1")]) none "id-2"
      = ("id-1", [("x", "1")] ++ [("__sandbox_session_id__", "id-1")]) :=
  claim10_context_session_id envOkC envOkC [("x", "1")] "id-1" "id-2" "given" rfl

end DolphinMCP
